import Mathlib

/-!
Shallow embedding of the plivo pub/sub broker core
(`plivo_pub_sub/pubsub/state.py` and `plivo_pub_sub/pubsub/consumers.py`)
together with theorems settling the specification claims.

Python `asyncio` queues become Lean lists (front = oldest element), the
per-topic history `deque(maxlen=ring_size)` becomes a list with an explicit
ring-append, Python dicts become insertion-ordered association lists, and
the WebSocket side effects (`send`, `close`) become an explicit output
trace of `WsAction` values.  Exceptions raised by transport side effects
(which the source catches and logs) are modelled by an oracle
`raises : String → Bool` saying whether the transport call for a given
client raises; the oracle influences only the emitted trace, never the
broker state, mirroring the `try/except` blocks of the source.
-/

/-- Default of Django setting PUBSUB_DEFAULT_RING_BUFFER_SIZE (state.py line 52). -/
def PUBSUB_DEFAULT_RING_BUFFER_SIZE : Nat := 100

/-- Default of Django setting PUBSUB_SUBSCRIBER_QUEUE_SIZE (state.py line 34). -/
def PUBSUB_SUBSCRIBER_QUEUE_SIZE : Nat := 50

/-- Default of Django setting PUBSUB_SLOW_CONSUMER_THRESHOLD (state.py line 37). -/
def PUBSUB_SLOW_CONSUMER_THRESHOLD : Nat := 3

/-- JSON-like values as handled by the Python handlers (payloads, frame fields). -/
inductive PyJson where
  | null
  | bool (b : Bool)
  | num (n : Int)
  | str (s : String)
  | arr (elems : List PyJson)
  | obj (fields : List (String × PyJson))
deriving Repr

/-- Python truthiness of a JSON value (`not x` in the handlers). -/
def PyJson.truthy : PyJson → Bool
  | PyJson.null => false
  | PyJson.bool b => b
  | PyJson.num n => n != 0
  | PyJson.str s => s != ""
  | PyJson.arr xs => !xs.isEmpty
  | PyJson.obj fs => !fs.isEmpty

/-- Python truthiness of `d.get(k)` for an optional JSON value: `None` is falsy. -/
def pyTruthyOpt : Option PyJson → Bool
  | Option.none => false
  | Option.some j => j.truthy

/-- Python truthiness of an optional string frame field. -/
def strTruthyOpt : Option String → Bool
  | Option.none => false
  | Option.some s => s != ""

/-- Lookup `fields.get(k)` on a JSON object field list (Python dict get). -/
def jslookup (fields : List (String × PyJson)) (k : String) : Option PyJson :=
  (fields.find? (fun p => p.1 == k)).map (fun p => p.2)

/-- The value `None` returned by a Python function with no return statement. -/
inductive PyNone where
  | none
deriving Repr, DecidableEq

/-- Message dataclass (state.py lines 16-20): id, payload, server timestamp. -/
structure Message where
  id : String
  payload : PyJson
  timestamp : Nat
deriving Repr

/-- Subscriber (state.py lines 23-38).  The `asyncio.Queue` is a list whose
head is the oldest enqueued message; `queue_size` is the queue `maxsize`. -/
structure Subscriber where
  client_id : String
  ws : Nat
  last_n : Int
  queue_size : Nat
  slow_consumer_threshold : Nat
  drop_count : Nat
  queue : List Message
deriving Repr

/-- Topic (state.py lines 41-56): subscribers dict (insertion-ordered assoc
list keyed by client_id), history deque with maxlen `ring_size`, and the
`message_count` counter. -/
structure Topic where
  name : String
  subscribers : List (String × Subscriber)
  history : List Message
  ring_size : Nat
  message_count : Nat
deriving Repr

/-- Construction Topic(name, ring_size) (state.py lines 47-56); a `none`
ring size falls back to the PUBSUB_DEFAULT_RING_BUFFER_SIZE setting. -/
def Topic.init (name : String) (ring_size : Option Nat) : Topic :=
  { name := name, subscribers := [], history := [],
    ring_size := ring_size.getD PUBSUB_DEFAULT_RING_BUFFER_SIZE,
    message_count := 0 }

/-- Python dict assignment `d[key] = v`: replaces in place when the key is
present, otherwise appends (insertion order of dicts). -/
def dictInsert {α : Type} (xs : List (String × α)) (key : String) (v : α) :
    List (String × α) :=
  if xs.any (fun p => p.1 == key) then
    xs.map (fun p => if p.1 = key then (key, v) else p)
  else xs ++ [(key, v)]

/-- Topic.add_subscriber (state.py lines 58-65): dict insert keyed by the
client_id of the subscriber (an existing entry is replaced). -/
def Topic.add_subscriber (t : Topic) (s : Subscriber) : Topic :=
  { t with subscribers := dictInsert t.subscribers s.client_id s }

/-- Topic.remove_subscriber (state.py lines 67-75): `pop(client_id, None)`
on the subscribers dict.  The Python method is annotated `-> None` and has
no return statement, so its value is always `None`; this is made explicit
by the `PyNone` component. -/
def Topic.remove_subscriber (t : Topic) (client_id : String) : Topic × PyNone :=
  ({ t with subscribers := t.subscribers.filter (fun p => p.1 != client_id) },
   PyNone.none)

/-- Per-subscriber enqueue step of the fan-out loop in Topic.publish_message
(state.py lines 88-106).  `put_nowait` raises QueueFull exactly when
`maxsize > 0` and the queue holds at least `maxsize` items; on success the
drop count resets to 0.  On QueueFull the loop does `get_nowait()` (evict
the head, i.e. the oldest message), `put_nowait(message)`, and increments
`drop_count`.  The Bool result records whether the QueueFull branch ran.
(The `QueueEmpty` sub-branch of the source is unreachable when
`queue_size ≥ 1`, since a full queue is then non-empty.) -/
def Subscriber.enqueue (s : Subscriber) (m : Message) : Subscriber × Bool :=
  if s.queue_size = 0 ∨ s.queue.length < s.queue_size then
    ({ s with queue := s.queue ++ [m], drop_count := 0 }, false)
  else
    ({ s with queue := s.queue.tail ++ [m], drop_count := s.drop_count + 1 }, true)

/-- Append on `deque(maxlen)` (state.py line 84): when the deque already
holds `maxlen` items the oldest is evicted as the new item is appended. -/
def ringAppend (maxlen : Nat) (h : List Message) (m : Message) : List Message :=
  if h.length < maxlen then h ++ [m]
  else (h ++ [m]).drop (h.length + 1 - maxlen)

/-- Outbound transport actions performed by the broker (the `_send_*` helper
methods of consumers.py and `ws.close`).  `ws` identifies the session the
action is directed at; `close` carries the optional close code. -/
inductive WsAction where
  | sendAck (ws : Nat) (request_id : Option String) (topic : String) (status : String)
  | sendEvent (ws : Nat) (topic : String) (message : Message)
  | sendError (ws : Nat) (request_id : Option String) (code : String) (message : String)
  | sendPong (ws : Nat) (request_id : Option String)
  | sendInfo (ws : Nat) (msg : String) (topic : Option String)
  | close (ws : Nat) (code : Option Nat)
deriving Repr

/-- Predicate of state.py line 103 applied to the post-enqueue subscriber:
the enqueue overflowed and the incremented drop count reached the
slow-consumer threshold, so the subscriber joins `slow_consumers`. -/
def isSlowAfter (m : Message) (p : String × Subscriber) : Bool :=
  (p.2.enqueue m).2 &&
    decide ((p.2.enqueue m).1.slow_consumer_threshold ≤ (p.2.enqueue m).1.drop_count)

/-- Transport actions attempted for one slow consumer (state.py lines
112-118): `_send_error(None, "SLOW_CONSUMER", ...)` then `close(code=1008)`,
in one `try` block whose exception is caught and logged.  When the oracle
says the send raises, the close is not reached; either way the caller
proceeds to remove the subscriber. -/
def slowActions (raises : String → Bool) (s : Subscriber) : List WsAction :=
  if raises s.client_id then
    [WsAction.sendError s.ws none "SLOW_CONSUMER" "Consumer too slow, disconnecting"]
  else
    [WsAction.sendError s.ws none "SLOW_CONSUMER" "Consumer too slow, disconnecting",
     WsAction.close s.ws (some 1008)]

/-- Topic.publish_message (state.py lines 77-120): append to the history
ring, increment `message_count`, enqueue to every subscriber in dict order
(drop-oldest on overflow), collect subscribers whose drop count crossed the
threshold, then for each of those attempt the SLOW_CONSUMER error and the
1008 close (exceptions caught) and pop it from the subscribers dict. -/
def Topic.publish_message (t : Topic) (raises : String → Bool) (m : Message) :
    Topic × List WsAction :=
  let updated := t.subscribers.map (fun p => (p.1, (p.2.enqueue m).1))
  let slow := (t.subscribers.filter (isSlowAfter m)).map (fun p => (p.2.enqueue m).1)
  let remaining := updated.filter (fun p => !(slow.any (fun s => s.client_id == p.1)))
  ({ t with history := ringAppend t.ring_size t.history m,
            message_count := t.message_count + 1,
            subscribers := remaining },
   (slow.map (slowActions raises)).flatten)

/-- Topic.get_recent_messages (state.py lines 122-129): `last_n ≤ 0` returns
the whole history, otherwise the Python slice `list(history)[-last_n:]`,
i.e. the suffix of the `min(last_n, len)` most recent messages.  The topic
is returned unchanged (the source only reads under the lock). -/
def Topic.get_recent_messages (t : Topic) (last_n : Int) : Topic × List Message :=
  if last_n ≤ 0 then (t, t.history)
  else (t, t.history.drop (t.history.length - last_n.toNat))

/-- Iterated publishes (used to state the history-length law). -/
def Topic.publishSeq (t : Topic) (raises : String → Bool) (msgs : List Message) : Topic :=
  msgs.foldl (fun acc m => (acc.publish_message raises m).1) t

/-- TopicManager (state.py lines 132-143): registry of topics, the
shutdown latch and the shutdown event flag. -/
structure TopicManager where
  topics : List (String × Topic)
  shutdown_initiated : Bool
  shutdown_event : Bool
deriving Repr

/-- Freshly constructed TopicManager (state.py lines 138-143). -/
def TopicManager.initState : TopicManager :=
  { topics := [], shutdown_initiated := false, shutdown_event := false }

/-- TopicManager.get_topic (state.py lines 180-182): dict lookup. -/
def TopicManager.get_topic (mgr : TopicManager) (name : String) : Option Topic :=
  (mgr.topics.find? (fun p => p.1 == name)).map (fun p => p.2)

/-- In-place update of one topic of the registry (the handlers mutate the
`Topic` object held in `manager.topics`). -/
def TopicManager.setTopic (mgr : TopicManager) (name : String) (t : Topic) :
    TopicManager :=
  { mgr with topics := mgr.topics.map (fun p => if p.1 = name then (name, t) else p) }

/-- TopicManager.create_topic (state.py lines 145-158): refused while the
shutdown latch is set, refused when the name exists, otherwise a fresh
Topic is inserted. -/
def TopicManager.create_topic (mgr : TopicManager) (name : String)
    (ring_size : Option Nat) : TopicManager × Bool :=
  if mgr.shutdown_initiated then (mgr, false)
  else if mgr.topics.any (fun p => p.1 == name) then (mgr, false)
  else ({ mgr with topics := mgr.topics ++ [(name, Topic.init name ring_size)] }, true)

/-- TopicManager.delete_topic (state.py lines 160-178): pop the topic, then
close the transport of every subscriber (`ws.close()`, default code). -/
def TopicManager.delete_topic (mgr : TopicManager) (name : String) :
    TopicManager × Bool × List WsAction :=
  match mgr.get_topic name with
  | Option.none => (mgr, false, [])
  | Option.some T =>
    ({ mgr with topics := mgr.topics.filter (fun p => p.1 != name) }, true,
     T.subscribers.map (fun p => WsAction.close p.2.ws none))

/-- TopicManager.initiate_shutdown (state.py lines 217-237): set the latch,
send the shutdown info message to every subscriber of every topic
(exceptions caught), set the shutdown event. -/
def TopicManager.initiate_shutdown (mgr : TopicManager) :
    TopicManager × List WsAction :=
  ({ mgr with shutdown_initiated := true, shutdown_event := true },
   (mgr.topics.map (fun tp =>
      tp.2.subscribers.map (fun p =>
        WsAction.sendInfo p.2.ws "Server shutting down gracefully" (some tp.1)))).flatten)

/-- TopicManager.shutdown (state.py lines 239-275): initiate the shutdown if
not already latched, best-effort flush (a pure wait, no state change), then
close every subscriber with code 1001 and clear the registry. -/
def TopicManager.shutdown (mgr : TopicManager) : TopicManager × List WsAction :=
  let step1 := if mgr.shutdown_initiated then (mgr, ([] : List WsAction))
               else mgr.initiate_shutdown
  let closes := (step1.1.topics.map (fun tp =>
      tp.2.subscribers.map (fun p => WsAction.close p.2.ws (some 1001)))).flatten
  ({ step1.1 with topics := [] }, step1.2 ++ closes)

/-- Hexadecimal digit test for the UUID check. -/
def isHexDigitChar (c : Char) : Bool :=
  (48 ≤ c.toNat && c.toNat ≤ 57) ||
  (97 ≤ c.toNat && c.toNat ≤ 102) ||
  (65 ≤ c.toNat && c.toNat ≤ 70)

/-- Curly-brace character test, written via code points. -/
def isBraceChar (c : Char) : Bool := c.toNat == 123 || c.toNat == 125

/-- Whether `pat` is an initial segment of `s` (character lists). -/
def charsStartWith : List Char → List Char → Bool
  | [], _ => true
  | _ :: _, [] => false
  | p :: ps, c :: cs => p == c && charsStartWith ps cs

/-- Fuelled non-overlapping left-to-right replacement on character lists
(the semantics of Python `str.replace` for a non-empty pattern); the fuel
is instantiated with the length of the subject string. -/
def replaceFuel (pat rep : List Char) : Nat → List Char → List Char
  | 0, s => s
  | _ + 1, [] => []
  | fuel + 1, c :: rest =>
    if charsStartWith pat (c :: rest) then
      rep ++ replaceFuel pat rep fuel (List.drop pat.length (c :: rest))
    else c :: replaceFuel pat rep fuel rest

/-- Python `s.replace(pat, rep)` for a non-empty pattern. -/
def pyReplace (s pat rep : String) : String :=
  String.mk (replaceFuel pat.toList rep.toList s.toList.length s.toList)

/-- Validity check `uuid.UUID(message_id)` performed by _handle_publish
(consumers.py lines 171-177), modelled after the CPython constructor:
drop `urn:` and `uuid:` occurrences, strip surrounding curly braces,
remove hyphens, then require exactly 32 hexadecimal digits.  (The
sign/underscore leniencies of Python `int(-, 16)` are not modelled.) -/
def isValidUUID (s : String) : Bool :=
  let h1 := pyReplace (pyReplace s "urn:" "") "uuid:" ""
  let h2 := String.mk (((h1.toList.dropWhile isBraceChar).reverse.dropWhile
              isBraceChar).reverse)
  let h3 := pyReplace h2 "-" ""
  h3.toList.length == 32 && h3.toList.all isHexDigitChar

/-- Per-connection state of PubSubConsumer (consumers.py lines 40-44): the
transport handle of the session, the set of subscribed topic names and the
topic → user-provided client_id mapping. -/
structure Session where
  ws : Nat
  subscribed_topics : List String
  user_client_ids : List (String × String)
deriving Repr

/-- Parsed inbound frame (the `data` dict of PubSubConsumer.receive after
`json.loads`, dispatched on its `type` field). -/
inductive Frame where
  | subscribe (topic client_id : Option String) (last_n : Int) (request_id : Option String)
  | unsubscribe (topic client_id : Option String) (request_id : Option String)
  | publish (topic : Option String) (message : Option PyJson) (request_id : Option String)
  | ping (request_id : Option String)
  | other (msg_type request_id : Option String)
deriving Repr

/-- Tail of _handle_subscribe once the topic object is at hand (consumers.py
lines 111-135): build the Subscriber with the configured queue size, add it
to the topic, record the binding in the session, send the `last_n` most
recent historical messages as events when `last_n > 0`, then send the ack. -/
def subscribeProceed (mgr : TopicManager) (sess : Session) (tname cid : String)
    (last_n : Int) (request_id : Option String) (T : Topic) :
    TopicManager × Session × List WsAction :=
  let sub : Subscriber :=
    { client_id := cid, ws := sess.ws, last_n := last_n,
      queue_size := PUBSUB_SUBSCRIBER_QUEUE_SIZE,
      slow_consumer_threshold := PUBSUB_SLOW_CONSUMER_THRESHOLD,
      drop_count := 0, queue := [] }
  let T2 := T.add_subscriber sub
  let mgr2 := mgr.setTopic tname T2
  let sess2 : Session :=
    { sess with
      subscribed_topics :=
        if sess.subscribed_topics.contains tname then sess.subscribed_topics
        else sess.subscribed_topics ++ [tname],
      user_client_ids := dictInsert sess.user_client_ids tname cid }
  let events :=
    if last_n > 0 then
      (T2.get_recent_messages last_n).2.map (fun m => WsAction.sendEvent sess.ws tname m)
    else []
  (mgr2, sess2, events ++ [WsAction.sendAck sess.ws request_id tname "ok"])

/-- PubSubConsumer._handle_subscribe (consumers.py lines 86-135): falsy
topic or client_id is BAD_REQUEST; a missing topic is created on the fly
(INTERNAL if creation is refused); then `subscribeProceed`. -/
def PubSubConsumer.handle_subscribe (mgr : TopicManager) (sess : Session)
    (topic client_id : Option String) (last_n : Int) (request_id : Option String) :
    TopicManager × Session × List WsAction :=
  if !(strTruthyOpt topic) || !(strTruthyOpt client_id) then
    (mgr, sess, [WsAction.sendError sess.ws request_id "BAD_REQUEST"
                   "Missing required fields: topic, client_id"])
  else
    let tname := topic.getD ""
    let cid := client_id.getD ""
    match mgr.get_topic tname with
    | Option.some T => subscribeProceed mgr sess tname cid last_n request_id T
    | Option.none =>
      let created := mgr.create_topic tname none
      if created.2 then
        match created.1.get_topic tname with
        | Option.some T => subscribeProceed created.1 sess tname cid last_n request_id T
        | Option.none =>
          (created.1, sess, [WsAction.sendError sess.ws none "INTERNAL" "Internal error"])
      else
        (created.1, sess, [WsAction.sendError sess.ws request_id "INTERNAL"
                             "Failed to create topic"])

/-- PubSubConsumer._handle_unsubscribe together with the _unsubscribe helper
it calls with the client_id of the frame (consumers.py lines 137-149 and
204-218): falsy fields are BAD_REQUEST; a missing topic is TOPIC_NOT_FOUND;
otherwise the subscriber is removed (a silent no-op when absent), the
session bindings are cleaned up and an ok ack is sent. -/
def PubSubConsumer.handle_unsubscribe (mgr : TopicManager) (sess : Session)
    (topic client_id : Option String) (request_id : Option String) :
    TopicManager × Session × List WsAction :=
  if !(strTruthyOpt topic) || !(strTruthyOpt client_id) then
    (mgr, sess, [WsAction.sendError sess.ws request_id "BAD_REQUEST"
                   "Missing required fields: topic, client_id"])
  else
    let tname := topic.getD ""
    let cid := client_id.getD ""
    match mgr.get_topic tname with
    | Option.none =>
      (mgr, sess, [WsAction.sendError sess.ws request_id "TOPIC_NOT_FOUND"
                     "Topic not found"])
    | Option.some T =>
      let T2 := (T.remove_subscriber cid).1
      (mgr.setTopic tname T2,
       { sess with
         subscribed_topics := sess.subscribed_topics.filter (fun x => x != tname),
         user_client_ids := sess.user_client_ids.filter (fun p => p.1 != tname) },
       [WsAction.sendAck sess.ws request_id tname "ok"])

/-- PubSubConsumer._handle_publish (consumers.py lines 151-199).  Falsy
topic or message is BAD_REQUEST; falsy message.id or message.payload is
BAD_REQUEST; an id that is not a valid UUID is BAD_REQUEST; an unknown
topic is TOPIC_NOT_FOUND (no implicit creation); otherwise a Message with
the server-assigned timestamp `now` is built, Topic.publish_message runs,
and an ok ack echoing the request_id is sent after the publish trace.  A
truthy non-object message, or a truthy non-string id, makes the Python
attribute/type error that the outer receive handler reports as INTERNAL. -/
def PubSubConsumer.handle_publish (mgr : TopicManager) (sess : Session)
    (topic : Option String) (message_data : Option PyJson)
    (request_id : Option String) (now : Nat) (raises : String → Bool) :
    TopicManager × List WsAction :=
  if !(strTruthyOpt topic) || !(pyTruthyOpt message_data) then
    (mgr, [WsAction.sendError sess.ws request_id "BAD_REQUEST"
             "Missing required fields: topic, message"])
  else
    match message_data with
    | Option.some (PyJson.obj fields) =>
      let message_id := jslookup fields "id"
      let payload := jslookup fields "payload"
      if !(pyTruthyOpt message_id) || !(pyTruthyOpt payload) then
        (mgr, [WsAction.sendError sess.ws request_id "BAD_REQUEST"
                 "Missing required fields: message.id, message.payload"])
      else
        match message_id with
        | Option.some (PyJson.str mid) =>
          if !(isValidUUID mid) then
            (mgr, [WsAction.sendError sess.ws request_id "BAD_REQUEST"
                     "message.id must be a valid UUID"])
          else
            let tname := topic.getD ""
            match mgr.get_topic tname with
            | Option.none =>
              (mgr, [WsAction.sendError sess.ws request_id "TOPIC_NOT_FOUND"
                       "Topic not found"])
            | Option.some T =>
              let msg : Message :=
                { id := mid, payload := payload.getD PyJson.null, timestamp := now }
              let res := T.publish_message raises msg
              (mgr.setTopic tname res.1,
               res.2 ++ [WsAction.sendAck sess.ws request_id tname "ok"])
        | _ => (mgr, [WsAction.sendError sess.ws none "INTERNAL" "Internal error"])
    | _ => (mgr, [WsAction.sendError sess.ws none "INTERNAL" "Internal error"])

/-- PubSubConsumer.receive (consumers.py lines 56-84): while the
shutdown latch of the manager is set every inbound frame is answered with the
SERVICE_UNAVAILABLE error followed by a close with code 1001; otherwise the
frame is dispatched on its type, an unknown type being BAD_REQUEST. -/
def PubSubConsumer.receive (mgr : TopicManager) (sess : Session) (f : Frame)
    (now : Nat) (raises : String → Bool) :
    TopicManager × Session × List WsAction :=
  if mgr.shutdown_initiated then
    (mgr, sess,
     [WsAction.sendError sess.ws none "SERVICE_UNAVAILABLE" "Server is shutting down",
      WsAction.close sess.ws (some 1001)])
  else
    match f with
    | Frame.subscribe t c n rid => PubSubConsumer.handle_subscribe mgr sess t c n rid
    | Frame.unsubscribe t c rid => PubSubConsumer.handle_unsubscribe mgr sess t c rid
    | Frame.publish t md rid =>
      let res := PubSubConsumer.handle_publish mgr sess t md rid now raises
      (res.1, sess, res.2)
    | Frame.ping rid => (mgr, sess, [WsAction.sendPong sess.ws rid])
    | Frame.other _ rid =>
      (mgr, sess, [WsAction.sendError sess.ws rid "BAD_REQUEST" "Unknown message type"])

/-- One state transition of the broker: any TopicManager method that can
mutate the registry, or one inbound frame processed by a session. -/
inductive MStep : TopicManager → TopicManager → Prop where
  | create (mgr : TopicManager) (name : String) (rs : Option Nat) :
      MStep mgr (mgr.create_topic name rs).1
  | delete (mgr : TopicManager) (name : String) :
      MStep mgr (mgr.delete_topic name).1
  | initiate (mgr : TopicManager) : MStep mgr mgr.initiate_shutdown.1
  | fullShutdown (mgr : TopicManager) : MStep mgr mgr.shutdown.1
  | recv (mgr : TopicManager) (sess : Session) (f : Frame) (now : Nat)
      (raises : String → Bool) :
      MStep mgr (PubSubConsumer.receive mgr sess f now raises).1

/-- Well-formedness of the subscriber dict of a topic as maintained by the
source: keys are unique and each entry is keyed by the client_id
of its subscriber. -/
def Topic.wfSubscribers (t : Topic) : Prop :=
  (t.subscribers.map Prod.fst).Nodup ∧ ∀ p ∈ t.subscribers, p.2.client_id = p.1

/-! Helper lemmas shared by the claim theorems. -/

theorem Subscriber.enqueue_client_id (s : Subscriber) (m : Message) :
    (s.enqueue m).1.client_id = s.client_id := by
  unfold Subscriber.enqueue; split <;> rfl

theorem Subscriber.enqueue_ws (s : Subscriber) (m : Message) :
    (s.enqueue m).1.ws = s.ws := by
  unfold Subscriber.enqueue; split <;> rfl

theorem ringAppend_length (r : Nat) (h : List Message) (m : Message) :
    (ringAppend r h m).length = min (h.length + 1) r := by
  unfold ringAppend
  split
  · simp; omega
  · simp; omega

theorem Topic.publish_history (t : Topic) (raises : String → Bool) (m : Message) :
    (t.publish_message raises m).1.history = ringAppend t.ring_size t.history m := rfl

theorem Topic.publish_ring_size (t : Topic) (raises : String → Bool) (m : Message) :
    (t.publish_message raises m).1.ring_size = t.ring_size := rfl

theorem Topic.publish_subscribers (t : Topic) (raises : String → Bool) (m : Message) :
    (t.publish_message raises m).1.subscribers
      = (t.subscribers.map (fun p => (p.1, (p.2.enqueue m).1))).filter
          (fun p => !(((t.subscribers.filter (isSlowAfter m)).map
              (fun q => (q.2.enqueue m).1)).any (fun s => s.client_id == p.1))) := rfl

theorem Topic.publish_trace (t : Topic) (raises : String → Bool) (m : Message) :
    (t.publish_message raises m).2
      = (((t.subscribers.filter (isSlowAfter m)).map
            (fun q => (q.2.enqueue m).1)).map (slowActions raises)).flatten := rfl

/-- C1: for every subscriber S and message m fanned out to S during
Topic.publish_message, the enqueue is non-blocking drop-oldest: below
capacity Q the message is appended and drop_count resets to 0; at exactly Q
the oldest queued message is evicted, the message appended (length stays
Q), and drop_count is incremented by 1.  The last conjunct ties the
per-subscriber step to the fan-out: in a well-formed topic every subscriber
either survives the publish with exactly its enqueue-updated state or was
flagged slow by that same enqueue. -/
theorem C1_enqueue_drop_oldest (s : Subscriber) (m : Message)
    (hQ : 0 < s.queue_size) :
    (s.queue.length < s.queue_size →
      s.enqueue m = ({ s with queue := s.queue ++ [m], drop_count := 0 }, false)) ∧
    (s.queue.length = s.queue_size →
      s.enqueue m
        = ({ s with queue := s.queue.tail ++ [m], drop_count := s.drop_count + 1 },
           true) ∧
      (s.queue.tail ++ [m]).length = s.queue_size) ∧
    (∀ (t : Topic) (raises : String → Bool) (p : String × Subscriber),
      t.wfSubscribers → p ∈ t.subscribers →
      (p.1, (p.2.enqueue m).1) ∈ (t.publish_message raises m).1.subscribers ∨
        isSlowAfter m p = true) := by
  refine ⟨?_, ?_, ?_⟩
  · intro hlt
    unfold Subscriber.enqueue
    rw [if_pos (Or.inr hlt)]
  · intro heq
    constructor
    · unfold Subscriber.enqueue
      rw [if_neg]
      omega
    · simp
      omega
  · intro t raises p hwf hp
    by_cases hs : isSlowAfter m p = true
    · exact Or.inr hs
    · left
      rw [Topic.publish_subscribers]
      rw [List.mem_filter]
      refine ⟨List.mem_map_of_mem _ hp, ?_⟩
      simp only [Bool.not_eq_true', List.any_eq_false]
      intro x hx
      rw [List.mem_map] at hx
      obtain ⟨q, hq, hxq⟩ := hx
      rw [List.mem_filter] at hq
      intro hcontra
      have hqid : x.client_id = q.1 := by
        rw [← hxq, Subscriber.enqueue_client_id]
        exact hwf.2 q hq.1
      have hpq : q.1 = p.1 := by
        rw [← hqid]
        simpa using hcontra
      have : q = p := by
        have := List.inj_on_of_nodup_map hwf.1 hq.1 hp
        exact this hpq
      rw [this] at hq
      exact hs hq.2

/-- C1 witness at a concrete subscriber of capacity 2. -/
theorem C1_enqueue_drop_oldest_witness :
    (Subscriber.mk "c" 0 0 2 3 5 [Message.mk "a" PyJson.null 0,
        Message.mk "b" PyJson.null 1]).enqueue (Message.mk "x" PyJson.null 2)
      = (Subscriber.mk "c" 0 0 2 3 6 [Message.mk "b" PyJson.null 1,
          Message.mk "x" PyJson.null 2], true) := by
  have h := C1_enqueue_drop_oldest
    (Subscriber.mk "c" 0 0 2 3 5 [Message.mk "a" PyJson.null 0,
      Message.mk "b" PyJson.null 1]) (Message.mk "x" PyJson.null 2) (by decide)
  exact (h.2.1 rfl).1

theorem publishSeq_history_length (raises : String → Bool) (msgs : List Message) :
    ∀ (t : Topic), t.history.length ≤ t.ring_size →
      (t.publishSeq raises msgs).history.length
        = min (t.history.length + msgs.length) t.ring_size := by
  induction msgs with
  | nil =>
    intro t ht
    unfold Topic.publishSeq
    simp
    omega
  | cons m ms ih =>
    intro t ht
    have hstep : t.publishSeq raises (m :: ms)
        = ((t.publish_message raises m).1).publishSeq raises ms := rfl
    rw [hstep]
    have hlen : (t.publish_message raises m).1.history.length
        = min (t.history.length + 1) t.ring_size := by
      rw [Topic.publish_history, ringAppend_length]
    have hring := Topic.publish_ring_size t raises m
    have hle : (t.publish_message raises m).1.history.length
        ≤ (t.publish_message raises m).1.ring_size := by
      rw [hlen, hring]; omega
    rw [ih _ hle, hlen, hring]
    simp
    omega

/-- C3: the per-topic history is a ring of capacity R(T): a publish on a
state satisfying `len ≤ R` preserves it (so it holds in all reachable
states, topics being created with empty history); after n publishes on a
freshly created topic the history holds exactly min(n, R) messages; and a
publish on a full ring evicts the oldest message as the new one is
appended. -/
theorem C3_history_ring (t : Topic) (raises : String → Bool) (m : Message) :
    (t.history.length ≤ t.ring_size →
      (t.publish_message raises m).1.history.length ≤ t.ring_size) ∧
    (∀ (name : String) (rs : Option Nat) (msgs : List Message),
      ((Topic.init name rs).publishSeq raises msgs).history.length
        = min msgs.length (Topic.init name rs).ring_size) ∧
    (t.history.length = t.ring_size → 0 < t.ring_size →
      (t.publish_message raises m).1.history = t.history.tail ++ [m]) := by
  refine ⟨?_, ?_, ?_⟩
  · intro ht
    rw [Topic.publish_history, ringAppend_length]
    omega
  · intro name rs msgs
    have h0 : (Topic.init name rs).history.length ≤ (Topic.init name rs).ring_size := by
      simp [Topic.init]
    rw [publishSeq_history_length raises msgs _ h0]
    simp [Topic.init]
  · intro hfull hpos
    rw [Topic.publish_history]
    unfold ringAppend
    rw [if_neg (by omega)]
    have h1 : t.history.length + 1 - t.ring_size = 1 := by omega
    rw [h1]
    cases hh : t.history with
    | nil => rw [hh] at hfull; simp at hfull; omega
    | cons a as => simp

/-- C3 witness: three publishes on a fresh ring of capacity 2. -/
theorem C3_history_ring_witness :
    ((Topic.init "t" (some 2)).publishSeq (fun _ => false)
        [Message.mk "a" PyJson.null 0, Message.mk "b" PyJson.null 1,
         Message.mk "c" PyJson.null 2]).history.length = 2 := by
  have h := (C3_history_ring (Topic.init "t" (some 2)) (fun _ => false)
    (Message.mk "a" PyJson.null 0)).2.1 "t" (some 2)
    [Message.mk "a" PyJson.null 0, Message.mk "b" PyJson.null 1,
     Message.mk "c" PyJson.null 2]
  rw [h]
  rfl

/-- C5: get_recent_messages leaves the topic unchanged; with n ≤ 0 it
returns the entire history in publish order; with n > 0 it returns the
suffix of the min(n, len(history)) most recent messages, in publish order
(oldest first). -/
theorem C5_get_recent_messages (t : Topic) (n : Int) :
    ((t.get_recent_messages n).1 = t) ∧
    (n ≤ 0 → (t.get_recent_messages n).2 = t.history) ∧
    (0 < n →
      (t.get_recent_messages n).2 = t.history.drop (t.history.length - n.toNat) ∧
      (t.get_recent_messages n).2.length = min n.toNat t.history.length ∧
      (t.get_recent_messages n).2 <:+ t.history) := by
  refine ⟨?_, ?_, ?_⟩
  · unfold Topic.get_recent_messages
    split <;> rfl
  · intro hle
    unfold Topic.get_recent_messages
    rw [if_pos hle]
  · intro hpos
    have hneg : ¬ (n ≤ 0) := by omega
    unfold Topic.get_recent_messages
    rw [if_neg hneg]
    refine ⟨rfl, ?_, List.drop_suffix _ _⟩
    simp only [List.length_drop]
    have : 0 < n.toNat := by omega
    omega

/-- C5 witness at a three-message history with n = 2 and n = -1. -/
theorem C5_get_recent_messages_witness :
    ((Topic.mk "t" [] [Message.mk "a" PyJson.null 0, Message.mk "b" PyJson.null 1,
        Message.mk "c" PyJson.null 2] 5 3).get_recent_messages 2).2
      = [Message.mk "b" PyJson.null 1, Message.mk "c" PyJson.null 2] ∧
    ((Topic.mk "t" [] [Message.mk "a" PyJson.null 0, Message.mk "b" PyJson.null 1,
        Message.mk "c" PyJson.null 2] 5 3).get_recent_messages (-1)).2
      = [Message.mk "a" PyJson.null 0, Message.mk "b" PyJson.null 1,
         Message.mk "c" PyJson.null 2] := by
  constructor
  · have h := (C5_get_recent_messages (Topic.mk "t" []
      [Message.mk "a" PyJson.null 0, Message.mk "b" PyJson.null 1,
       Message.mk "c" PyJson.null 2] 5 3) 2).2.2 (by decide)
    rw [h.1]
    rfl
  · exact (C5_get_recent_messages _ (-1)).2.1 (by decide)

/-- C7 as stated is false: the claim says remove_subscriber returns whether
the removed subscriber existed, but the source (annotated `-> None`, no
return statement) always returns None.  Two topics that differ in whether
client "c" is registered get the identical return value. -/
theorem C7_counterexample :
    ((Topic.mk "t" [("c", Subscriber.mk "c" 0 0 50 3 0 [])] [] 5 0).remove_subscriber
        "c").2
      = ((Topic.mk "t" [] [] 5 0).remove_subscriber "c").2 ∧
    (Topic.mk "t" [("c", Subscriber.mk "c" 0 0 50 3 0 [])] [] 5 0).subscribers.any
        (fun p => p.1 == "c") = true ∧
    (Topic.mk "t" [] [] 5 0).subscribers.any (fun p => p.1 == "c") = false :=
  ⟨rfl, rfl, rfl⟩

/-- C7 (amended): remove_subscriber(c) removes the subscriber keyed by c
from T.subscribers if present, leaves T unchanged otherwise, and always
returns None — it does not report whether the subscriber existed. -/
theorem C7_remove_subscriber (t : Topic) (cid : String) :
    ((t.remove_subscriber cid).1.subscribers
        = t.subscribers.filter (fun p => p.1 != cid)) ∧
    ((t.remove_subscriber cid).1.name = t.name ∧
     (t.remove_subscriber cid).1.history = t.history ∧
     (t.remove_subscriber cid).1.ring_size = t.ring_size ∧
     (t.remove_subscriber cid).1.message_count = t.message_count) ∧
    (t.subscribers.any (fun p => p.1 == cid) = false →
      (t.remove_subscriber cid).1 = t) ∧
    ((t.remove_subscriber cid).2 = PyNone.none) := by
  refine ⟨rfl, ⟨rfl, rfl, rfl, rfl⟩, ?_, rfl⟩
  intro habsent
  have hall : ∀ p ∈ t.subscribers, (fun p : String × Subscriber => p.1 != cid) p = true := by
    intro p hp
    have := (List.any_eq_false.mp habsent) p hp
    simpa using this
  unfold Topic.remove_subscriber
  rw [List.filter_eq_self.mpr hall]

/-- C7 witness: removing an absent client is a no-op on the topic. -/
theorem C7_remove_subscriber_witness :
    ((Topic.mk "t" [("c", Subscriber.mk "c" 0 0 50 3 0 [])] [] 5 0).remove_subscriber
        "other").1
      = Topic.mk "t" [("c", Subscriber.mk "c" 0 0 50 3 0 [])] [] 5 0 :=
  (C7_remove_subscriber (Topic.mk "t" [("c", Subscriber.mk "c" 0 0 50 3 0 [])] [] 5 0)
    "other").2.2.1 rfl

/-- C8 as stated is false: when a subscriber with the same client_id is
already registered, add_subscriber replaces it, so the subsequent
remove_subscriber leaves the count one lower than before the pair. -/
theorem C8_counterexample :
    (((Topic.mk "t" [("c", Subscriber.mk "c" 0 0 50 3 0 [])] [] 5 0).add_subscriber
        (Subscriber.mk "c" 1 0 50 3 0 [])).remove_subscriber "c").1.subscribers.length
      = 0 ∧
    (Topic.mk "t" [("c", Subscriber.mk "c" 0 0 50 3 0 [])] [] 5 0).subscribers.length
      = 1 :=
  ⟨rfl, rfl⟩

/-- C8 (amended): provided no subscriber with s.client_id is already
registered on T, add_subscriber(s) immediately followed by
remove_subscriber(s.client_id) is a no-op on the subscriber count of T. -/
theorem C8_subscribe_unsubscribe_count (t : Topic) (s : Subscriber)
    (hnew : t.subscribers.any (fun p => p.1 == s.client_id) = false) :
    ((t.add_subscriber s).remove_subscriber s.client_id).1.subscribers.length
      = t.subscribers.length := by
  have hall : ∀ p ∈ t.subscribers,
      (fun p : String × Subscriber => p.1 != s.client_id) p = true := by
    intro p hp
    have := (List.any_eq_false.mp hnew) p hp
    simpa using this
  unfold Topic.add_subscriber Topic.remove_subscriber dictInsert
  rw [if_neg (by rw [hnew]; exact Bool.false_ne_true)]
  simp only [List.filter_append, List.filter_eq_self.mpr hall]
  simp

/-- C8 witness: fresh client on a topic that already has one subscriber. -/
theorem C8_subscribe_unsubscribe_count_witness :
    (((Topic.mk "t" [("a", Subscriber.mk "a" 0 0 50 3 0 [])] [] 5 0).add_subscriber
        (Subscriber.mk "b" 1 0 50 3 0 [])).remove_subscriber "b").1.subscribers.length
      = 1 :=
  C8_subscribe_unsubscribe_count
    (Topic.mk "t" [("a", Subscriber.mk "a" 0 0 50 3 0 [])] [] 5 0)
    (Subscriber.mk "b" 1 0 50 3 0 []) rfl

/-- C2: every subscriber whose drop_count is pushed to at least its
slow-consumer threshold during a publish (the `isSlowAfter` predicate of
the fan-out loop) is removed from the subscribers of the topic before
publish_message returns; the SLOW_CONSUMER error is attempted for it, and
when the transport call does not raise the close with policy-violation
code 1008 follows; and the resulting topic state is independent of whether
those side-effect calls raise (the exception is caught, not propagated). -/
theorem C2_slow_consumer_ejection (t : Topic) (m : Message) (raises : String → Bool)
    (p : String × Subscriber) (hp : p ∈ t.subscribers) (hkey : p.2.client_id = p.1)
    (hslow : isSlowAfter m p = true) :
    ((t.publish_message raises m).1.subscribers.any (fun q => q.1 == p.1)) = false ∧
    WsAction.sendError p.2.ws none "SLOW_CONSUMER" "Consumer too slow, disconnecting"
      ∈ (t.publish_message raises m).2 ∧
    (raises p.1 = false →
      WsAction.close p.2.ws (some 1008) ∈ (t.publish_message raises m).2) ∧
    (t.publish_message raises m).1 = (t.publish_message (fun _ => false) m).1 := by
  have hxmem : (p.2.enqueue m).1
      ∈ (t.subscribers.filter (isSlowAfter m)).map (fun q => (q.2.enqueue m).1) :=
    List.mem_map_of_mem _ (List.mem_filter.mpr ⟨hp, hslow⟩)
  have hxid : (p.2.enqueue m).1.client_id = p.1 := by
    rw [Subscriber.enqueue_client_id]; exact hkey
  have hxws : (p.2.enqueue m).1.ws = p.2.ws := Subscriber.enqueue_ws p.2 m
  refine ⟨?_, ?_, ?_, rfl⟩
  · rw [Topic.publish_subscribers, List.any_eq_false]
    intro q hq
    rw [List.mem_filter] at hq
    have hnone := hq.2
    simp only [Bool.not_eq_true', List.any_eq_false] at hnone
    have := hnone _ hxmem
    intro hq1
    apply this
    rw [hxid]
    rw [beq_iff_eq] at hq1 ⊢
    exact hq1.symm
  · rw [Topic.publish_trace]
    apply List.mem_flatten.mpr
    refine ⟨slowActions raises (p.2.enqueue m).1, List.mem_map_of_mem _ hxmem, ?_⟩
    unfold slowActions
    rw [← hxws]
    split <;> simp
  · intro hraise
    rw [Topic.publish_trace]
    apply List.mem_flatten.mpr
    refine ⟨slowActions raises (p.2.enqueue m).1, List.mem_map_of_mem _ hxmem, ?_⟩
    unfold slowActions
    rw [hxid, hraise]
    rw [← hxws]
    simp

/-- C2 witness: a subscriber of capacity 1 and threshold 1 is ejected (and
both side-effect actions are attempted) by the publish that overflows it. -/
theorem C2_slow_consumer_ejection_witness :
    ((Topic.mk "t" [("slow", Subscriber.mk "slow" 2 0 1 1 0
          [Message.mk "a" PyJson.null 0])] [] 5 0).publish_message (fun _ => false)
        (Message.mk "b" PyJson.null 1)).1.subscribers.any (fun q => q.1 == "slow")
      = false ∧
    WsAction.close 2 (some 1008)
      ∈ ((Topic.mk "t" [("slow", Subscriber.mk "slow" 2 0 1 1 0
            [Message.mk "a" PyJson.null 0])] [] 5 0).publish_message (fun _ => false)
          (Message.mk "b" PyJson.null 1)).2 := by
  have h := C2_slow_consumer_ejection
    (Topic.mk "t" [("slow", Subscriber.mk "slow" 2 0 1 1 0
      [Message.mk "a" PyJson.null 0])] [] 5 0)
    (Message.mk "b" PyJson.null 1) (fun _ => false)
    ("slow", Subscriber.mk "slow" 2 0 1 1 0 [Message.mk "a" PyJson.null 0])
    (List.mem_singleton.mpr rfl) rfl rfl
  exact ⟨h.1, h.2.2.1 rfl⟩

/-- C10 as stated is false for the empty client_id: the frame names an
existing topic "t" and carries client_id "", yet the session replies
BAD_REQUEST (the Python falsiness check of the handler), not the ok ack the
claim demands for every client_id. -/
theorem C10_counterexample :
    (TopicManager.mk [("t", Topic.init "t" (some 5))] false false).get_topic "t"
      = some (Topic.init "t" (some 5)) ∧
    (PubSubConsumer.receive (TopicManager.mk [("t", Topic.init "t" (some 5))] false false)
        (Session.mk 0 [] []) (Frame.unsubscribe (some "t") (some "") (some "r1"))
        0 (fun _ => false)).2.2
      = [WsAction.sendError 0 (some "r1") "BAD_REQUEST"
          "Missing required fields: topic, client_id"] :=
  ⟨rfl, rfl⟩

/-- C10 (amended): for every unsubscribe frame naming an existing topic T
with a non-empty client_id c, the session replies ack with status ok even
when no subscriber keyed by c is registered on T (the removal is a silent
no-op); TOPIC_NOT_FOUND is returned exactly when T is absent from the
registry. -/
theorem C10_unsubscribe_silent_noop (mgr : TopicManager) (sess : Session)
    (tn cid : String) (rid : Option String) (now : Nat) (raises : String → Bool)
    (hshut : mgr.shutdown_initiated = false) (htn : tn ≠ "") (hcid : cid ≠ "") :
    (∀ T, mgr.get_topic tn = some T →
      PubSubConsumer.receive mgr sess (Frame.unsubscribe (some tn) (some cid) rid)
          now raises
        = (mgr.setTopic tn (T.remove_subscriber cid).1,
           { sess with
             subscribed_topics := sess.subscribed_topics.filter (fun x => x != tn),
             user_client_ids := sess.user_client_ids.filter (fun p => p.1 != tn) },
           [WsAction.sendAck sess.ws rid tn "ok"])) ∧
    (mgr.get_topic tn = none →
      PubSubConsumer.receive mgr sess (Frame.unsubscribe (some tn) (some cid) rid)
          now raises
        = (mgr, sess,
           [WsAction.sendError sess.ws rid "TOPIC_NOT_FOUND" "Topic not found"])) := by
  constructor
  · intro T hT
    simp [PubSubConsumer.receive, hshut, PubSubConsumer.handle_unsubscribe,
      strTruthyOpt, htn, hcid, hT]
  · intro hT
    simp [PubSubConsumer.receive, hshut, PubSubConsumer.handle_unsubscribe,
      strTruthyOpt, htn, hcid, hT]

/-- C10 witness: unsubscribing a client that was never registered on the
topic still gets an ok ack. -/
theorem C10_unsubscribe_silent_noop_witness :
    PubSubConsumer.receive (TopicManager.mk [("t", Topic.init "t" (some 5))] false false)
        (Session.mk 0 [] []) (Frame.unsubscribe (some "t") (some "ghost") (some "r1"))
        0 (fun _ => false)
      = (TopicManager.mk [("t", Topic.init "t" (some 5))] false false,
         Session.mk 0 [] [],
         [WsAction.sendAck 0 (some "r1") "t" "ok"]) := by
  have h := (C10_unsubscribe_silent_noop
    (TopicManager.mk [("t", Topic.init "t" (some 5))] false false)
    (Session.mk 0 [] []) "t" "ghost" (some "r1") 0 (fun _ => false)
    rfl (by decide) (by decide)).1 (Topic.init "t" (some 5)) rfl
  rw [h]
  rfl

/-- C9 as stated is false for the empty client_id: a subscribe frame with
last_n = 2 and client_id "" on an existing topic whose three-message
history is non-empty is answered by the falsiness guard of the handler
(consumers.py line 91) with BAD_REQUEST — no event frame and no ack —
where the claim demands two events followed by the ack. -/
theorem C9_counterexample :
    (TopicManager.mk [("t", Topic.mk "t" []
        [Message.mk "a" PyJson.null 0, Message.mk "b" PyJson.null 1,
         Message.mk "c" PyJson.null 2] 5 3)] false false).get_topic "t"
      = some (Topic.mk "t" [] [Message.mk "a" PyJson.null 0,
          Message.mk "b" PyJson.null 1, Message.mk "c" PyJson.null 2] 5 3) ∧
    (PubSubConsumer.receive
        (TopicManager.mk [("t", Topic.mk "t" []
          [Message.mk "a" PyJson.null 0, Message.mk "b" PyJson.null 1,
           Message.mk "c" PyJson.null 2] 5 3)] false false)
        (Session.mk 9 [] []) (Frame.subscribe (some "t") (some "") 2 (some "r2"))
        7 (fun _ => false)).2.2
      = [WsAction.sendError 9 (some "r2") "BAD_REQUEST"
          "Missing required fields: topic, client_id"] :=
  ⟨rfl, rfl⟩

/-- C9 (amended): for a subscribe frame with a non-empty client_id and
last_n > 0 on an existing topic with non-empty history, the reply of the
session consists of exactly the min(last_n, len(history)) most recent
historical messages, as event frames in publish order (oldest first),
followed by — strictly after all of them — the ack for the subscribe
request_id. -/
theorem C9_subscribe_replay (mgr : TopicManager) (sess : Session) (tn cid : String)
    (last_n : Int) (rid : Option String) (now : Nat) (raises : String → Bool)
    (T : Topic) (hshut : mgr.shutdown_initiated = false) (htn : tn ≠ "")
    (hcid : cid ≠ "") (hT : mgr.get_topic tn = some T) (hhist : T.history ≠ [])
    (hn : 0 < last_n) :
    (PubSubConsumer.receive mgr sess (Frame.subscribe (some tn) (some cid) last_n rid)
        now raises).2.2
      = (T.history.drop (T.history.length - last_n.toNat)).map
          (fun m => WsAction.sendEvent sess.ws tn m)
        ++ [WsAction.sendAck sess.ws rid tn "ok"] ∧
    (T.history.drop (T.history.length - last_n.toNat)).length
      = min last_n.toNat T.history.length := by
  constructor
  · have hnot : ¬ (last_n ≤ 0) := by omega
    simp [PubSubConsumer.receive, hshut, PubSubConsumer.handle_subscribe,
      strTruthyOpt, htn, hcid, hT, subscribeProceed, Topic.add_subscriber,
      Topic.get_recent_messages, hn, hnot]
  · simp only [List.length_drop]
    have : 0 < last_n.toNat := by omega
    omega

/-- C9 witness: subscribing with last_n = 2 on a three-message history
yields the two most recent events, oldest first, then the ack. -/
theorem C9_subscribe_replay_witness :
    (PubSubConsumer.receive
        (TopicManager.mk [("t", Topic.mk "t" []
          [Message.mk "a" PyJson.null 0, Message.mk "b" PyJson.null 1,
           Message.mk "c" PyJson.null 2] 5 3)] false false)
        (Session.mk 9 [] []) (Frame.subscribe (some "t") (some "c1") 2 (some "r2"))
        7 (fun _ => false)).2.2
      = [WsAction.sendEvent 9 "t" (Message.mk "b" PyJson.null 1),
         WsAction.sendEvent 9 "t" (Message.mk "c" PyJson.null 2),
         WsAction.sendAck 9 (some "r2") "t" "ok"] := by
  have h := (C9_subscribe_replay
    (TopicManager.mk [("t", Topic.mk "t" []
      [Message.mk "a" PyJson.null 0, Message.mk "b" PyJson.null 1,
       Message.mk "c" PyJson.null 2] 5 3)] false false)
    (Session.mk 9 [] []) "t" "c1" 2 (some "r2") 7 (fun _ => false)
    (Topic.mk "t" [] [Message.mk "a" PyJson.null 0, Message.mk "b" PyJson.null 1,
      Message.mk "c" PyJson.null 2] 5 3)
    rfl (by decide) (by decide) rfl (by simp) (by decide)).1
  rw [h]
  rfl

/-- C6 as stated is false: a publish frame whose topic exists, whose
message carries a present, valid-UUID id and a present payload that is the
empty object is answered with BAD_REQUEST (the handler tests Python
falsiness, and `{}` is falsy) instead of being published and acked. -/
theorem C6_counterexample :
    isValidUUID "00000000000000000000000000000000" = true ∧
    (TopicManager.mk [("t", Topic.init "t" (some 5))] false false).get_topic "t"
      = some (Topic.init "t" (some 5)) ∧
    jslookup [("id", PyJson.str "00000000000000000000000000000000"),
        ("payload", PyJson.obj [])] "payload" = some (PyJson.obj []) ∧
    (PubSubConsumer.receive
        (TopicManager.mk [("t", Topic.init "t" (some 5))] false false)
        (Session.mk 0 [] [])
        (Frame.publish (some "t")
          (some (PyJson.obj [("id", PyJson.str "00000000000000000000000000000000"),
            ("payload", PyJson.obj [])]))
          (some "r1")) 0 (fun _ => false)).2.2
      = [WsAction.sendError 0 (some "r1") "BAD_REQUEST"
          "Missing required fields: message.id, message.payload"] :=
  ⟨rfl, rfl, rfl, rfl⟩

/-- C6 (amended): for every inbound publish frame, reading "missing" as
"missing or empty (Python-falsy)": a falsy topic or message, a falsy
message.id or message.payload, or a string id that is not a valid UUID, is
answered with BAD_REQUEST and leaves broker state unchanged; with the
fields present and the id valid, an unknown topic is answered with
TOPIC_NOT_FOUND and no topic is implicitly created; otherwise
Topic.publish_message runs on a Message carrying the server-assigned
timestamp and an ack echoing the request_id of the frame is sent after the
publish trace. -/
theorem C6_publish_frame_validation (mgr : TopicManager) (sess : Session)
    (rid : Option String) (now : Nat) (raises : String → Bool)
    (hshut : mgr.shutdown_initiated = false) :
    (∀ (topic : Option String) (md : Option PyJson),
      strTruthyOpt topic = false ∨ pyTruthyOpt md = false →
      PubSubConsumer.receive mgr sess (Frame.publish topic md rid) now raises
        = (mgr, sess, [WsAction.sendError sess.ws rid "BAD_REQUEST"
            "Missing required fields: topic, message"])) ∧
    (∀ (tn : String) (fields : List (String × PyJson)),
      tn ≠ "" → (PyJson.obj fields).truthy = true →
      (pyTruthyOpt (jslookup fields "id") = false ∨
        pyTruthyOpt (jslookup fields "payload") = false) →
      PubSubConsumer.receive mgr sess
          (Frame.publish (some tn) (some (PyJson.obj fields)) rid) now raises
        = (mgr, sess, [WsAction.sendError sess.ws rid "BAD_REQUEST"
            "Missing required fields: message.id, message.payload"])) ∧
    (∀ (tn : String) (fields : List (String × PyJson)) (mid : String),
      tn ≠ "" → (PyJson.obj fields).truthy = true →
      jslookup fields "id" = some (PyJson.str mid) → mid ≠ "" →
      pyTruthyOpt (jslookup fields "payload") = true →
      isValidUUID mid = false →
      PubSubConsumer.receive mgr sess
          (Frame.publish (some tn) (some (PyJson.obj fields)) rid) now raises
        = (mgr, sess, [WsAction.sendError sess.ws rid "BAD_REQUEST"
            "message.id must be a valid UUID"])) ∧
    (∀ (tn : String) (fields : List (String × PyJson)) (mid : String) (pl : PyJson),
      tn ≠ "" → (PyJson.obj fields).truthy = true →
      jslookup fields "id" = some (PyJson.str mid) → mid ≠ "" →
      jslookup fields "payload" = some pl → pl.truthy = true →
      isValidUUID mid = true →
      (mgr.get_topic tn = none →
        PubSubConsumer.receive mgr sess
            (Frame.publish (some tn) (some (PyJson.obj fields)) rid) now raises
          = (mgr, sess, [WsAction.sendError sess.ws rid "TOPIC_NOT_FOUND"
              "Topic not found"])) ∧
      (∀ T, mgr.get_topic tn = some T →
        PubSubConsumer.receive mgr sess
            (Frame.publish (some tn) (some (PyJson.obj fields)) rid) now raises
          = (mgr.setTopic tn (T.publish_message raises (Message.mk mid pl now)).1,
             sess,
             (T.publish_message raises (Message.mk mid pl now)).2
               ++ [WsAction.sendAck sess.ws rid tn "ok"]))) := by
  refine ⟨?_, ?_, ?_, ?_⟩
  · intro topic md hfalsy
    rcases hfalsy with h | h <;>
      simp [PubSubConsumer.receive, hshut, PubSubConsumer.handle_publish, h]
  · intro tn fields htn htr hfalsy
    have hstn : strTruthyOpt (some tn) = true := by simp [strTruthyOpt, htn]
    have hobj : pyTruthyOpt (some (PyJson.obj fields)) = true := by
      simp [pyTruthyOpt, htr]
    rcases hfalsy with h | h <;>
      simp [PubSubConsumer.receive, hshut, PubSubConsumer.handle_publish,
        hstn, hobj, h]
  · intro tn fields mid htn htr hid hmid hpl huuid
    have hstn : strTruthyOpt (some tn) = true := by simp [strTruthyOpt, htn]
    have hobj : pyTruthyOpt (some (PyJson.obj fields)) = true := by
      simp [pyTruthyOpt, htr]
    have hmids : pyTruthyOpt (some (PyJson.str mid)) = true := by
      simp [pyTruthyOpt, PyJson.truthy, hmid]
    have hidt : pyTruthyOpt (jslookup fields "id") = true := by rw [hid]; exact hmids
    simp [PubSubConsumer.receive, hshut, PubSubConsumer.handle_publish,
      hstn, hobj, hidt, hmids, hpl, hid, huuid]
  · intro tn fields mid pl htn htr hid hmid hplv hplt huuid
    have hstn : strTruthyOpt (some tn) = true := by simp [strTruthyOpt, htn]
    have hobj : pyTruthyOpt (some (PyJson.obj fields)) = true := by
      simp [pyTruthyOpt, htr]
    have hmids : pyTruthyOpt (some (PyJson.str mid)) = true := by
      simp [pyTruthyOpt, PyJson.truthy, hmid]
    have hidt : pyTruthyOpt (jslookup fields "id") = true := by rw [hid]; exact hmids
    have hpls : pyTruthyOpt (some pl) = true := by simp [pyTruthyOpt, hplt]
    have hplt2 : pyTruthyOpt (jslookup fields "payload") = true := by
      rw [hplv]; exact hpls
    constructor
    · intro hnone
      simp [PubSubConsumer.receive, hshut, PubSubConsumer.handle_publish,
        hstn, hobj, hidt, hplt2, hmids, hpls, hid, hplv, huuid, hnone]
    · intro T hsome
      simp [PubSubConsumer.receive, hshut, PubSubConsumer.handle_publish,
        hstn, hobj, hidt, hplt2, hmids, hpls, hid, hplv, huuid, hsome]

/-- C6 witness: a fully valid publish frame on an existing topic yields the
publish followed by the ack echoing the request_id. -/
theorem C6_publish_frame_validation_witness :
    PubSubConsumer.receive (TopicManager.mk [("t", Topic.init "t" (some 5))] false false)
        (Session.mk 0 [] [])
        (Frame.publish (some "t")
          (some (PyJson.obj [("id", PyJson.str "00000000000000000000000000000000"),
            ("payload", PyJson.obj [("k", PyJson.num 1)])]))
          (some "r1")) 4 (fun _ => false)
      = ((TopicManager.mk [("t", Topic.init "t" (some 5))] false false).setTopic "t"
           ((Topic.init "t" (some 5)).publish_message (fun _ => false)
             (Message.mk "00000000000000000000000000000000"
               (PyJson.obj [("k", PyJson.num 1)]) 4)).1,
         Session.mk 0 [] [],
         ((Topic.init "t" (some 5)).publish_message (fun _ => false)
             (Message.mk "00000000000000000000000000000000"
               (PyJson.obj [("k", PyJson.num 1)]) 4)).2
           ++ [WsAction.sendAck 0 (some "r1") "t" "ok"]) := by
  exact ((C6_publish_frame_validation
    (TopicManager.mk [("t", Topic.init "t" (some 5))] false false)
    (Session.mk 0 [] []) (some "r1") 4 (fun _ => false) rfl).2.2.2
    "t" [("id", PyJson.str "00000000000000000000000000000000"),
      ("payload", PyJson.obj [("k", PyJson.num 1)])]
    "00000000000000000000000000000000" (PyJson.obj [("k", PyJson.num 1)])
    (by decide) rfl rfl (by decide) rfl rfl rfl).2
    (Topic.init "t" (some 5)) rfl

theorem create_topic_flag (mgr : TopicManager) (name : String) (rs : Option Nat) :
    (mgr.create_topic name rs).1.shutdown_initiated = mgr.shutdown_initiated := by
  unfold TopicManager.create_topic
  split
  · rfl
  · split <;> rfl

theorem setTopic_flag (mgr : TopicManager) (name : String) (t : Topic) :
    (mgr.setTopic name t).shutdown_initiated = mgr.shutdown_initiated := rfl

theorem handle_subscribe_flag (mgr : TopicManager) (sess : Session)
    (t c : Option String) (n : Int) (rid : Option String) :
    (PubSubConsumer.handle_subscribe mgr sess t c n rid).1.shutdown_initiated
      = mgr.shutdown_initiated := by
  by_cases hguard : (!strTruthyOpt t || !strTruthyOpt c) = true
  · simp [PubSubConsumer.handle_subscribe, hguard]
  · cases hgt : mgr.get_topic (t.getD "") with
    | some T =>
      simp [PubSubConsumer.handle_subscribe, subscribeProceed, hguard, hgt,
        TopicManager.setTopic]
    | none =>
      cases hc : (mgr.create_topic (t.getD "") none).2 with
      | true =>
        cases hgt2 : (mgr.create_topic (t.getD "") none).1.get_topic (t.getD "") with
        | some T =>
          simp [PubSubConsumer.handle_subscribe, subscribeProceed, hguard, hgt,
            hc, hgt2, TopicManager.setTopic, create_topic_flag]
        | none =>
          simp [PubSubConsumer.handle_subscribe, hguard, hgt, hc, hgt2,
            create_topic_flag]
      | false =>
        simp [PubSubConsumer.handle_subscribe, hguard, hgt, hc, create_topic_flag]

theorem handle_unsubscribe_flag (mgr : TopicManager) (sess : Session)
    (t c : Option String) (rid : Option String) :
    (PubSubConsumer.handle_unsubscribe mgr sess t c rid).1.shutdown_initiated
      = mgr.shutdown_initiated := by
  by_cases hguard : (!strTruthyOpt t || !strTruthyOpt c) = true
  · simp [PubSubConsumer.handle_unsubscribe, hguard]
  · cases hgt : mgr.get_topic (t.getD "") with
    | some T =>
      simp [PubSubConsumer.handle_unsubscribe, hguard, hgt, TopicManager.setTopic]
    | none => simp [PubSubConsumer.handle_unsubscribe, hguard, hgt]

theorem handle_publish_flag (mgr : TopicManager) (sess : Session)
    (t : Option String) (md : Option PyJson) (rid : Option String) (now : Nat)
    (raises : String → Bool) :
    (PubSubConsumer.handle_publish mgr sess t md rid now raises).1.shutdown_initiated
      = mgr.shutdown_initiated := by
  by_cases hguard : (!strTruthyOpt t || !pyTruthyOpt md) = true
  · simp [PubSubConsumer.handle_publish, hguard]
  · cases md with
    | none => simp [PubSubConsumer.handle_publish, hguard]
    | some j =>
      cases j with
      | obj fields =>
        by_cases h2 : (!pyTruthyOpt (jslookup fields "id")
            || !pyTruthyOpt (jslookup fields "payload")) = true
        · simp [PubSubConsumer.handle_publish, hguard, h2]
        · cases hmi : jslookup fields "id" with
          | none => rw [hmi] at h2; simp [pyTruthyOpt] at h2
          | some v =>
            cases v with
            | str mid =>
              by_cases huuid : (!isValidUUID mid) = true
              · simp [PubSubConsumer.handle_publish, hguard, h2, hmi, huuid]
                  <;> split <;> rfl
              · cases hgt : mgr.get_topic (t.getD "") with
                | none =>
                  simp [PubSubConsumer.handle_publish, hguard, h2, hmi, huuid, hgt]
                    <;> split <;> rfl
                | some T =>
                  simp [PubSubConsumer.handle_publish, hguard, h2, hmi, huuid,
                    hgt, TopicManager.setTopic] <;> split <;> rfl
            | null =>
              simp [PubSubConsumer.handle_publish, hguard, h2, hmi] <;> split <;> rfl
            | bool b =>
              simp [PubSubConsumer.handle_publish, hguard, h2, hmi] <;> split <;> rfl
            | num k =>
              simp [PubSubConsumer.handle_publish, hguard, h2, hmi] <;> split <;> rfl
            | arr xs =>
              simp [PubSubConsumer.handle_publish, hguard, h2, hmi] <;> split <;> rfl
            | obj fs =>
              simp [PubSubConsumer.handle_publish, hguard, h2, hmi] <;> split <;> rfl
      | null => simp [PubSubConsumer.handle_publish, hguard]
      | bool b => simp [PubSubConsumer.handle_publish, hguard]
      | num k => simp [PubSubConsumer.handle_publish, hguard]
      | str s => simp [PubSubConsumer.handle_publish, hguard]
      | arr xs => simp [PubSubConsumer.handle_publish, hguard]

theorem receive_flag (mgr : TopicManager) (sess : Session) (f : Frame) (now : Nat)
    (raises : String → Bool) :
    (PubSubConsumer.receive mgr sess f now raises).1.shutdown_initiated
      = mgr.shutdown_initiated := by
  unfold PubSubConsumer.receive
  split
  · rfl
  · cases f with
    | subscribe t c n rid => exact handle_subscribe_flag mgr sess t c n rid
    | unsubscribe t c rid => exact handle_unsubscribe_flag mgr sess t c rid
    | publish t md rid => exact handle_publish_flag mgr sess t md rid now raises
    | ping rid => rfl
    | other ty rid => rfl

theorem mstep_latch (m m2 : TopicManager) (h : MStep m m2)
    (hm : m.shutdown_initiated = true) : m2.shutdown_initiated = true := by
  cases h with
  | create name rs => rw [create_topic_flag]; exact hm
  | delete name =>
    unfold TopicManager.delete_topic
    split <;> exact hm
  | initiate => rfl
  | fullShutdown => simp [TopicManager.shutdown, hm]
  | recv sess f now raises => rw [receive_flag]; exact hm

/-- C4: the shutdown latch is one-way — along any sequence of broker steps
a true shutdown_initiated stays true — and while it is set create_topic
returns not-created (leaving the registry untouched) for every name, and
every inbound frame on every session is answered with the
SERVICE_UNAVAILABLE error followed by a transport close with code 1001,
the broker state unchanged. -/
theorem C4_shutdown_latch :
    (∀ (m m2 : TopicManager), Relation.ReflTransGen MStep m m2 →
      m.shutdown_initiated = true → m2.shutdown_initiated = true) ∧
    (∀ (m : TopicManager) (name : String) (rs : Option Nat),
      m.shutdown_initiated = true →
      (m.create_topic name rs).2 = false ∧ (m.create_topic name rs).1 = m) ∧
    (∀ (m : TopicManager) (sess : Session) (f : Frame) (now : Nat)
        (raises : String → Bool),
      m.shutdown_initiated = true →
      PubSubConsumer.receive m sess f now raises
        = (m, sess,
           [WsAction.sendError sess.ws none "SERVICE_UNAVAILABLE"
              "Server is shutting down",
            WsAction.close sess.ws (some 1001)])) := by
  refine ⟨?_, ?_, ?_⟩
  · intro m m2 hreach
    induction hreach with
    | refl => exact fun hm => hm
    | tail _ hstep ih => exact fun hm => mstep_latch _ _ hstep (ih hm)
  · intro m name rs hm
    constructor
    · unfold TopicManager.create_topic
      rw [if_pos hm]
    · unfold TopicManager.create_topic
      rw [if_pos hm]
  · intro m sess f now raises hm
    unfold PubSubConsumer.receive
    rw [if_pos hm]

/-- C4 witness: from a latched manager, one create step and one received
ping both leave the latch set, creation is refused, and the frame is
answered with SERVICE_UNAVAILABLE and the 1001 close. -/
theorem C4_shutdown_latch_witness :
    ((TopicManager.mk [] true true).create_topic "t" none).1.shutdown_initiated
      = true ∧
    ((TopicManager.mk [] true true).create_topic "t" none).2 = false ∧
    PubSubConsumer.receive (TopicManager.mk [] true true) (Session.mk 3 [] [])
        (Frame.ping (some "r")) 0 (fun _ => false)
      = (TopicManager.mk [] true true, Session.mk 3 [] [],
         [WsAction.sendError 3 none "SERVICE_UNAVAILABLE" "Server is shutting down",
          WsAction.close 3 (some 1001)]) :=
  ⟨C4_shutdown_latch.1 (TopicManager.mk [] true true)
      ((TopicManager.mk [] true true).create_topic "t" none).1
      (Relation.ReflTransGen.single (MStep.create (TopicManager.mk [] true true) "t" none))
      rfl,
   (C4_shutdown_latch.2.1 (TopicManager.mk [] true true) "t" none rfl).1,
   C4_shutdown_latch.2.2 (TopicManager.mk [] true true) (Session.mk 3 [] [])
     (Frame.ping (some "r")) 0 (fun _ => false) rfl⟩
